import Mathlib

/-!
# FisherFiles image captioning: verification of `src/openai/caption.py`

Shallow embedding of the two functions of the repository:

* `_file_to_data_url` — reads an image file, base64-encodes its bytes and
  builds a `data:<mime>;base64,<payload>` URL (embedded as `file_to_data_url`);
* `caption` — resolves an API key, constructs the OpenAI client, normalizes
  the image path, builds a single-message multimodal request and returns the
  trimmed output text (embedded as `caption`).

External collaborators (the filesystem, `mimetypes.guess_type`, path
normalization via `pathlib`, the remote endpoint, `os.environ`) are modelled
as explicit parameters, so every theorem quantifies over their behaviour.
Side effects of `caption` are recorded as an explicit event trace.
Bytes are natural numbers below 256.
-/

namespace FisherFiles

/-- The standard base64 alphabet, as used by Python's `base64.b64encode`. -/
def b64Table : List Char :=
  "ABCDEFGHIJKLMNOPQRSTUVWXYZabcdefghijklmnopqrstuvwxyz0123456789+/".toList

/-- Character for a 6-bit group. -/
def b64Char (n : Nat) : Char := b64Table.getD n 'A'

/-- Index of a base64 character in the alphabet (inverse of `b64Char`). -/
def b64Val (c : Char) : Nat := b64Table.indexOf c

/-- Base64 encoding of a byte list, with `=` padding, as produced by
`base64.b64encode`: each group of three bytes becomes four alphabet
characters; a final group of one or two bytes is padded. -/
def b64encode : List Nat → List Char
  | [] => []
  | [a] => [b64Char (a / 4), b64Char (a % 4 * 16), '=', '=']
  | [a, b] => [b64Char (a / 4), b64Char (a % 4 * 16 + b / 16), b64Char (b % 16 * 4), '=']
  | a :: b :: c :: rest =>
      b64Char (a / 4) :: b64Char (a % 4 * 16 + b / 16) ::
        b64Char (b % 16 * 4 + c / 64) :: b64Char (c % 64) :: b64encode rest

/-- Standard base64 decoding of a well-formed encoding: groups of four
characters yield three bytes, with `=` padding signalling a short final
group. Used to state the encode/decode round-trip property. -/
def b64decode : List Char → List Nat
  | a :: b :: c :: d :: rest =>
      if c = '=' then
        [b64Val a * 4 + b64Val b / 16]
      else if d = '=' then
        [b64Val a * 4 + b64Val b / 16, b64Val b % 16 * 16 + b64Val c / 4]
      else
        (b64Val a * 4 + b64Val b / 16) :: (b64Val b % 16 * 16 + b64Val c / 4) ::
          (b64Val c % 4 * 64 + b64Val d) :: b64decode rest
  | _ => []

theorem b64Val_b64Char : ∀ n, n < 64 → b64Val (b64Char n) = n := by decide

theorem b64Char_ne_pad : ∀ n, n < 64 → b64Char n ≠ '=' := by decide

/-- Decoding a base64 encoding recovers the original bytes. -/
theorem b64decode_b64encode :
    ∀ bs : List Nat, (∀ x ∈ bs, x < 256) → b64decode (b64encode bs) = bs
  | [], _ => rfl
  | [a], h => by
    have ha : a < 256 := h a (by simp)
    simp only [b64encode, b64decode, if_true]
    rw [b64Val_b64Char _ (by omega), b64Val_b64Char _ (by omega)]
    simp only [List.cons.injEq, and_true]
    omega
  | [a, b], h => by
    have ha : a < 256 := h a (by simp)
    have hb : b < 256 := h b (by simp)
    simp only [b64encode, b64decode, if_true]
    rw [if_neg (b64Char_ne_pad _ (by omega))]
    rw [b64Val_b64Char _ (by omega), b64Val_b64Char _ (by omega),
      b64Val_b64Char _ (by omega)]
    simp only [List.cons.injEq, and_true]
    omega
  | [a, b, c], h => by
    have ha : a < 256 := h a (by simp)
    have hb : b < 256 := h b (by simp)
    have hc : c < 256 := h c (by simp)
    simp only [b64encode, b64decode]
    rw [if_neg (b64Char_ne_pad _ (by omega)), if_neg (b64Char_ne_pad _ (by omega))]
    rw [b64Val_b64Char _ (by omega), b64Val_b64Char _ (by omega),
      b64Val_b64Char _ (by omega), b64Val_b64Char _ (by omega)]
    simp only [List.cons.injEq, and_true]
    omega
  | a :: b :: c :: d :: rest, h => by
    have ha : a < 256 := h a (by simp)
    have hb : b < 256 := h b (by simp)
    have hc : c < 256 := h c (by simp)
    have ih := b64decode_b64encode (d :: rest)
      (fun x hx => h x (by simp only [List.mem_cons] at hx ⊢; tauto))
    simp only [b64encode, b64decode]
    rw [if_neg (b64Char_ne_pad _ (by omega)), if_neg (b64Char_ne_pad _ (by omega))]
    rw [b64Val_b64Char _ (by omega), b64Val_b64Char _ (by omega),
      b64Val_b64Char _ (by omega), b64Val_b64Char _ (by omega)]
    rw [ih]
    simp only [List.cons.injEq, and_true]
    omega

/-- Embedding of Python's `str.startswith`: the second string is an initial
segment of the first. -/
def pyStartswith (s pat : String) : Bool :=
  s.toList.take pat.toList.length == pat.toList

/-- Embedding of Python's `str.strip()` with no argument: remove leading and
trailing whitespace characters. -/
def pyStrip (s : String) : String :=
  String.mk
    (((s.toList.dropWhile Char.isWhitespace).reverse.dropWhile
        Char.isWhitespace).reverse)

/-- Abstract filesystem, standing for the `pathlib.Path` queries and the file
read that `_file_to_data_url` performs. `readBytes` gives the bytes the file
holds; a byte is a natural number below 256 (stated as a hypothesis where
needed). -/
structure FS where
  pathExists : String → Bool
  isFile : String → Bool
  readBytes : String → List Nat

/-- The two errors raised locally by `caption.py`: `FileNotFoundError` from
`_file_to_data_url`, and the `RuntimeError` for a missing API key. -/
inductive CaptionError where
  | fileNotFound (path : String)
  | missingApiKey
deriving DecidableEq

/-- The MIME component chosen by `_file_to_data_url`: `mimetypes.guess_type`
(modelled by the parameter `guess_type`) when it yields an `image/` type,
`image/png` otherwise. -/
def mimeFor (guess_type : String → Option String) (image_path : String) : String :=
  match guess_type image_path with
  | none => "image/png"
  | some m => if pyStartswith m "image/" then m else "image/png"

/-- Embedding of `_file_to_data_url`: raise `FileNotFoundError` unless the
path exists and is a regular file; otherwise base64-encode the file's bytes
and build `data:<mime>;base64,<payload>`. -/
def file_to_data_url (fs : FS) (guess_type : String → Option String)
    (image_path : String) : Except CaptionError String :=
  if !fs.pathExists image_path || !fs.isFile image_path then
    Except.error (CaptionError.fileNotFound image_path)
  else
    Except.ok ("data:" ++ mimeFor guess_type image_path ++ ";base64," ++
      String.mk (b64encode (fs.readBytes image_path)))

/-- One content part of the request (`input_text` or `input_image`). -/
inductive ContentPart where
  | input_text (text : String)
  | input_image (image_url : String)
deriving DecidableEq

/-- One role-tagged message of the request. -/
structure Message where
  role : String
  content : List ContentPart
deriving DecidableEq

/-- The request sent to `client.responses.create`. -/
structure Request where
  model : String
  input : List Message
  max_output_tokens : Nat
deriving DecidableEq

/-- The remote response; `output_text` is `none` when the response carries no
generated text (Python `None`). -/
structure Response where
  output_text : Option String

/-- Observable effects of one `caption` call, in order: constructing the
`AsyncOpenAI` client, reading the image file, sending the request. -/
inductive Event where
  | constructClient (key : String)
  | readFile (path : String)
  | sendRequest (req : Request)
deriving DecidableEq

/-- Embedding of `key = api_key or os.environ.get("OPENAI_API_KEY")` followed
by `if not key: raise`: Python `or` skips a falsy (`None` or empty) left
operand, and `not key` rejects a missing or empty result. -/
def resolveKey (api_key : Option String) (env : String → Option String) :
    Option String :=
  let key : Option String :=
    match api_key with
    | some s => if s = "" then env "OPENAI_API_KEY" else some s
    | none => env "OPENAI_API_KEY"
  match key with
  | none => none
  | some s => if s = "" then none else some s

/-- Embedding of `caption`. External behaviour is passed in: `guess_type`
for `mimetypes.guess_type`, `env` for `os.environ.get`, `norm` for
`Path(image_path).expanduser().resolve()`, `remote` for the OpenAI endpoint.
Returns the result together with the trace of effects: on a missing key the
trace is empty (the `RuntimeError` is raised first); the client is
constructed before the file is read, and the request is sent last. The
result is `(resp.output_text or "").strip()`. -/
def caption (fs : FS) (guess_type : String → Option String)
    (env : String → Option String) (norm : String → String)
    (remote : Request → Response)
    (image_path prompt model : String) (max_output_tokens : Nat)
    (api_key : Option String) :
    Except CaptionError String × List Event :=
  match resolveKey api_key env with
  | none => (Except.error CaptionError.missingApiKey, [])
  | some key =>
    let path := norm image_path
    match file_to_data_url fs guess_type path with
    | Except.error e => (Except.error e, [Event.constructClient key])
    | Except.ok data_url =>
      let req : Request :=
        { model := model
          input := [{ role := "user"
                      content := [ContentPart.input_text prompt,
                                  ContentPart.input_image data_url] }]
          max_output_tokens := max_output_tokens }
      let resp := remote req
      (Except.ok (pyStrip (resp.output_text.getD "")),
       [Event.constructClient key, Event.readFile path, Event.sendRequest req])

/-! ## Concrete test doubles for witnesses -/

/-- A filesystem where every path is a regular file holding the two bytes
of "Hi". -/
def fsHi : FS :=
  { pathExists := fun _ => true, isFile := fun _ => true
    readBytes := fun _ => [72, 105] }

/-- A filesystem with no files at all. -/
def fsEmpty : FS :=
  { pathExists := fun _ => false, isFile := fun _ => false
    readBytes := fun _ => [] }

/-- A MIME guesser that always answers `image/jpeg`. -/
def guessJpeg : String → Option String := fun _ => some "image/jpeg"

/-- A MIME guesser that always answers the non-image type `text/html`. -/
def guessHtml : String → Option String := fun _ => some "text/html"

/-- An environment with no variables set. -/
def envUnset : String → Option String := fun _ => none

/-- An environment holding a usable API key. -/
def envWithKey : String → Option String := fun _ => some "sk-test"

/-- Identity path normalization. -/
def normId : String → String := fun p => p

/-- A remote double returning a fixed untrimmed text. -/
def remoteCat : Request → Response :=
  fun _ => { output_text := some "  A cat sits on a mat.  " }

/-- A remote double whose response carries no generated text. -/
def remoteNoText : Request → Response := fun _ => { output_text := none }

/-! ## Claims -/

/-- C1: for every existing regular file, the encoder returns a string of the
exact form `data:<mime>;base64,<payload>` where the payload is the base64
encoding of the file's bytes, and base64-decoding the payload reproduces the
original bytes exactly. -/
theorem encoder_data_url_roundtrip (fs : FS) (guess_type : String → Option String)
    (p : String) (hex : fs.pathExists p = true) (hf : fs.isFile p = true)
    (hbytes : ∀ x ∈ fs.readBytes p, x < 256) :
    file_to_data_url fs guess_type p =
      Except.ok ("data:" ++ mimeFor guess_type p ++ ";base64," ++
        String.mk (b64encode (fs.readBytes p))) ∧
    b64decode (b64encode (fs.readBytes p)) = fs.readBytes p := by
  constructor
  · simp [file_to_data_url, hex, hf]
  · exact b64decode_b64encode _ hbytes

theorem encoder_data_url_roundtrip_witness :
    file_to_data_url fsHi guessJpeg "cat.jpg" =
      Except.ok ("data:" ++ mimeFor guessJpeg "cat.jpg" ++ ";base64," ++
        String.mk (b64encode (fsHi.readBytes "cat.jpg"))) ∧
    b64decode (b64encode (fsHi.readBytes "cat.jpg")) = fsHi.readBytes "cat.jpg" :=
  encoder_data_url_roundtrip fsHi guessJpeg "cat.jpg" rfl rfl (by decide)

/-- C2: when no API key is resolvable (parameter absent, environment variable
unset), `caption` fails with the missing-credentials error and its effect
trace is empty: no client construction, no file read, no request sent. -/
theorem caption_missing_key_no_effects (fs : FS)
    (guess_type env : String → Option String) (norm : String → String)
    (remote : Request → Response) (image_path prompt model : String)
    (max_output_tokens : Nat) (henv : env "OPENAI_API_KEY" = none) :
    caption fs guess_type env norm remote image_path prompt model
        max_output_tokens none =
      (Except.error CaptionError.missingApiKey, []) := by
  simp [caption, resolveKey, henv]

theorem caption_missing_key_no_effects_witness :
    caption fsHi guessJpeg envUnset normId remoteCat "cat.jpg" "p" "m" 80 none =
      (Except.error CaptionError.missingApiKey, []) :=
  caption_missing_key_no_effects fsHi guessJpeg envUnset normId remoteCat
    "cat.jpg" "p" "m" 80 rfl

/-- C3: on a path that does not exist or is not a regular file, the encoder
fails with the file-not-found error and never returns a value. -/
theorem encoder_missing_file_error (fs : FS)
    (guess_type : String → Option String) (p : String)
    (h : fs.pathExists p = false ∨ fs.isFile p = false) :
    file_to_data_url fs guess_type p =
      Except.error (CaptionError.fileNotFound p) := by
  rcases h with h | h <;> simp [file_to_data_url, h]

theorem encoder_missing_file_error_witness :
    file_to_data_url fsEmpty guessJpeg "missing.png" =
      Except.error (CaptionError.fileNotFound "missing.png") :=
  encoder_missing_file_error fsEmpty guessJpeg "missing.png" (Or.inl rfl)

/-- C4: for an existing regular file whose MIME inference fails or yields a
non-image type, the encoder uses `image/png` as the MIME component while the
payload still base64-encodes the file's true bytes. -/
theorem encoder_mime_fallback_png (fs : FS)
    (guess_type : String → Option String) (p : String)
    (hex : fs.pathExists p = true) (hf : fs.isFile p = true)
    (hmime : guess_type p = none ∨
      ∃ m, guess_type p = some m ∧ pyStartswith m "image/" = false) :
    file_to_data_url fs guess_type p =
      Except.ok ("data:image/png;base64," ++
        String.mk (b64encode (fs.readBytes p))) := by
  have hpng : mimeFor guess_type p = "image/png" := by
    rcases hmime with h | ⟨m, hm, hs⟩
    · simp [mimeFor, h]
    · simp [mimeFor, hm, hs]
  simp only [file_to_data_url, hex, hf, Bool.not_true, Bool.or_self,
    Bool.false_eq_true, if_false, hpng]
  rfl

theorem encoder_mime_fallback_png_witness :
    file_to_data_url fsHi guessHtml "cat.bin" =
      Except.ok ("data:image/png;base64," ++
        String.mk (b64encode (fsHi.readBytes "cat.bin"))) :=
  encoder_mime_fallback_png fsHi guessHtml "cat.bin" rfl rfl
    (Or.inr ⟨"text/html", rfl, by decide⟩)

/-- A normalization double sending every spelling of the example image to one
absolute path. -/
def normAbs : String → String := fun _ => "/home/u/cat.jpg"

/-- C5: on a successful remote response, `caption` returns the generated text
with leading and trailing whitespace removed; in particular the output text
`"  A cat sits on a mat.  "` yields `"A cat sits on a mat."`. -/
theorem caption_trims_output (fs : FS) (guess_type env : String → Option String)
    (norm : String → String) (p pr m : String) (mt : Nat)
    (api_key : Option String) (k t : String)
    (hkey : resolveKey api_key env = some k)
    (hex : fs.pathExists (norm p) = true) (hf : fs.isFile (norm p) = true) :
    (caption fs guess_type env norm (fun _ => { output_text := some t })
        p pr m mt api_key).1 = Except.ok (pyStrip t) ∧
    (caption fs guess_type env norm
        (fun _ => { output_text := some "  A cat sits on a mat.  " })
        p pr m mt api_key).1 = Except.ok "A cat sits on a mat." := by
  constructor
  · simp [caption, hkey, file_to_data_url, hex, hf]
  · simp [caption, hkey, file_to_data_url, hex, hf]
    decide

theorem caption_trims_output_witness :
    (caption fsHi guessJpeg envUnset normId (fun _ => { output_text := some " x " })
        "cat.jpg" "p" "m" 80 (some "sk")).1 = Except.ok (pyStrip " x ") ∧
    (caption fsHi guessJpeg envUnset normId
        (fun _ => { output_text := some "  A cat sits on a mat.  " })
        "cat.jpg" "p" "m" 80 (some "sk")).1 = Except.ok "A cat sits on a mat." :=
  caption_trims_output fsHi guessJpeg envUnset normId "cat.jpg" "p" "m" 80
    (some "sk") "sk" " x " (by decide) rfl rfl

/-- C6: a remote response with no generated text is not an error: `caption`
returns the empty string. -/
theorem caption_no_text_yields_empty (fs : FS)
    (guess_type env : String → Option String) (norm : String → String)
    (p pr m : String) (mt : Nat) (api_key : Option String) (k : String)
    (hkey : resolveKey api_key env = some k)
    (hex : fs.pathExists (norm p) = true) (hf : fs.isFile (norm p) = true) :
    (caption fs guess_type env norm (fun _ => { output_text := none })
        p pr m mt api_key).1 = Except.ok "" := by
  simp [caption, hkey, file_to_data_url, hex, hf]
  decide

theorem caption_no_text_yields_empty_witness :
    (caption fsHi guessJpeg envUnset normId (fun _ => { output_text := none })
        "cat.jpg" "p" "m" 80 (some "sk")).1 = Except.ok "" :=
  caption_no_text_yields_empty fsHi guessJpeg envUnset normId "cat.jpg" "p" "m"
    80 (some "sk") "sk" (by decide) rfl rfl

/-- C7: the request sent to the remote endpoint holds exactly one message,
with role "user", holding exactly two content parts in order: the prompt
text, then the image data URL. -/
theorem caption_request_shape (fs : FS)
    (guess_type env : String → Option String) (norm : String → String)
    (remote : Request → Response) (p pr m : String) (mt : Nat)
    (api_key : Option String) (k : String)
    (hkey : resolveKey api_key env = some k)
    (hex : fs.pathExists (norm p) = true) (hf : fs.isFile (norm p) = true) :
    (caption fs guess_type env norm remote p pr m mt api_key).2 =
      [Event.constructClient k, Event.readFile (norm p),
       Event.sendRequest
         { model := m
           input := [{ role := "user"
                       content := [ContentPart.input_text pr,
                                   ContentPart.input_image
                                     ("data:" ++ mimeFor guess_type (norm p) ++
                                      ";base64," ++
                                      String.mk (b64encode (fs.readBytes (norm p))))] }]
           max_output_tokens := mt }] := by
  simp [caption, hkey, file_to_data_url, hex, hf]

theorem caption_request_shape_witness :
    (caption fsHi guessJpeg envUnset normId remoteCat "cat.jpg" "p" "m" 80
        (some "sk")).2 =
      [Event.constructClient "sk", Event.readFile (normId "cat.jpg"),
       Event.sendRequest
         { model := "m"
           input := [{ role := "user"
                       content := [ContentPart.input_text "p",
                                   ContentPart.input_image
                                     ("data:" ++ mimeFor guessJpeg (normId "cat.jpg") ++
                                      ";base64," ++
                                      String.mk (b64encode (fsHi.readBytes (normId "cat.jpg"))))] }]
           max_output_tokens := 80 }] :=
  caption_request_shape fsHi guessJpeg envUnset normId remoteCat "cat.jpg" "p"
    "m" 80 (some "sk") "sk" (by decide) rfl rfl

/-- C8: two calls differing only in `prompt` build requests that differ only
in the text content part, and two calls differing only in
`max_output_tokens` build requests that differ only in that field: model,
role, image data URL and message structure are unchanged. -/
theorem caption_request_frame (fs : FS)
    (guess_type env : String → Option String) (norm : String → String)
    (remote : Request → Response) (p m pr1 pr2 : String) (mt1 mt2 : Nat)
    (api_key : Option String) (k : String)
    (hkey : resolveKey api_key env = some k)
    (hex : fs.pathExists (norm p) = true) (hf : fs.isFile (norm p) = true) :
    ∃ u,
      (caption fs guess_type env norm remote p pr1 m mt1 api_key).2 =
        [Event.constructClient k, Event.readFile (norm p),
         Event.sendRequest ⟨m, [⟨"user", [ContentPart.input_text pr1,
           ContentPart.input_image u]⟩], mt1⟩] ∧
      (caption fs guess_type env norm remote p pr2 m mt1 api_key).2 =
        [Event.constructClient k, Event.readFile (norm p),
         Event.sendRequest ⟨m, [⟨"user", [ContentPart.input_text pr2,
           ContentPart.input_image u]⟩], mt1⟩] ∧
      (caption fs guess_type env norm remote p pr1 m mt2 api_key).2 =
        [Event.constructClient k, Event.readFile (norm p),
         Event.sendRequest ⟨m, [⟨"user", [ContentPart.input_text pr1,
           ContentPart.input_image u]⟩], mt2⟩] := by
  refine ⟨"data:" ++ mimeFor guess_type (norm p) ++ ";base64," ++
      String.mk (b64encode (fs.readBytes (norm p))), ?_, ?_, ?_⟩ <;>
    simp [caption, hkey, file_to_data_url, hex, hf]

theorem caption_request_frame_witness :
    ∃ u,
      (caption fsHi guessJpeg envUnset normId remoteCat "cat.jpg" "p1" "m" 80
          (some "sk")).2 =
        [Event.constructClient "sk", Event.readFile (normId "cat.jpg"),
         Event.sendRequest ⟨"m", [⟨"user", [ContentPart.input_text "p1",
           ContentPart.input_image u]⟩], 80⟩] ∧
      (caption fsHi guessJpeg envUnset normId remoteCat "cat.jpg" "p2" "m" 80
          (some "sk")).2 =
        [Event.constructClient "sk", Event.readFile (normId "cat.jpg"),
         Event.sendRequest ⟨"m", [⟨"user", [ContentPart.input_text "p2",
           ContentPart.input_image u]⟩], 80⟩] ∧
      (caption fsHi guessJpeg envUnset normId remoteCat "cat.jpg" "p1" "m" 81
          (some "sk")).2 =
        [Event.constructClient "sk", Event.readFile (normId "cat.jpg"),
         Event.sendRequest ⟨"m", [⟨"user", [ContentPart.input_text "p1",
           ContentPart.input_image u]⟩], 81⟩] :=
  caption_request_frame fsHi guessJpeg envUnset normId remoteCat "cat.jpg" "m"
    "p1" "p2" 80 81 (some "sk") "sk" (by decide) rfl rfl

/-- C9: the image path is normalized before encoding — the encoder only ever
reads the normalized path, and any two spellings with the same normalization
give identical results and identical effect traces. -/
theorem caption_normalizes_path (fs : FS)
    (guess_type env : String → Option String) (norm : String → String)
    (remote : Request → Response) (p1 p2 pr m : String) (mt : Nat)
    (api_key : Option String) (hnorm : norm p1 = norm p2) :
    caption fs guess_type env norm remote p1 pr m mt api_key =
      caption fs guess_type env norm remote p2 pr m mt api_key ∧
    ∀ q, Event.readFile q ∈
        (caption fs guess_type env norm remote p1 pr m mt api_key).2 →
      q = norm p1 := by
  constructor
  · unfold caption
    rw [hnorm]
  · intro q hq
    unfold caption at hq
    rcases hres : resolveKey api_key env with _ | k
    · rw [hres] at hq
      simp at hq
    · rw [hres] at hq
      simp only at hq
      rcases henc : file_to_data_url fs guess_type (norm p1) with e | u
      · rw [henc] at hq
        simp at hq
      · rw [henc] at hq
        simp at hq
        exact hq

theorem caption_normalizes_path_witness :
    caption fsHi guessJpeg envUnset normAbs remoteCat "~/cat.jpg" "p" "m" 80
        (some "sk") =
      caption fsHi guessJpeg envUnset normAbs remoteCat "cat.jpg" "p" "m" 80
        (some "sk") ∧
    ∀ q, Event.readFile q ∈
        (caption fsHi guessJpeg envUnset normAbs remoteCat "~/cat.jpg" "p" "m"
          80 (some "sk")).2 →
      q = normAbs "~/cat.jpg" :=
  caption_normalizes_path fsHi guessJpeg envUnset normAbs remoteCat "~/cat.jpg"
    "cat.jpg" "p" "m" 80 (some "sk") rfl

/-- C10: an explicit empty-string `api_key` is treated exactly as an absent
key — the environment is consulted as a fallback, and when the environment
variable is also unset or empty the call fails with the missing-credentials
error (an empty key is never used as a credential). -/
theorem caption_empty_api_key (fs : FS)
    (guess_type env : String → Option String) (norm : String → String)
    (remote : Request → Response) (p pr m : String) (mt : Nat) :
    caption fs guess_type env norm remote p pr m mt (some "") =
      caption fs guess_type env norm remote p pr m mt none ∧
    ((env "OPENAI_API_KEY" = none ∨ env "OPENAI_API_KEY" = some "") →
      caption fs guess_type env norm remote p pr m mt (some "") =
        (Except.error CaptionError.missingApiKey, [])) := by
  have hres : resolveKey (some "") env = resolveKey none env := by
    simp [resolveKey]
  constructor
  · unfold caption
    rw [hres]
  · rintro (h | h) <;> simp [caption, resolveKey, h]

theorem caption_empty_api_key_witness :
    caption fsHi guessJpeg envUnset normId remoteCat "cat.jpg" "p" "m" 80
        (some "") =
      caption fsHi guessJpeg envUnset normId remoteCat "cat.jpg" "p" "m" 80
        none ∧
    caption fsHi guessJpeg envUnset normId remoteCat "cat.jpg" "p" "m" 80
        (some "") =
      (Except.error CaptionError.missingApiKey, []) :=
  ⟨(caption_empty_api_key fsHi guessJpeg envUnset normId remoteCat "cat.jpg"
      "p" "m" 80).1,
   (caption_empty_api_key fsHi guessJpeg envUnset normId remoteCat "cat.jpg"
      "p" "m" 80).2 (Or.inl rfl)⟩

end FisherFiles
